import Mathlib

/-!
Verification of the real-time transcription session manager of the
granola-clone application.

The core under study is the class WhisperLocalService
(src/main/transcription/whisper-local.ts), the IPC handlers that wrap it
(src/main/ipc-handlers.ts: transcription:start, transcription:send-audio,
transcription:stop), and the renderer's transcript display handler
(src/renderer, MeetingPage: onTranscriptionResult).

The service is single-threaded and event-driven, so it is modelled as a
step function on an explicit state record, driven by a list of events:
WebSocket callbacks (open, message, error, close), the two timers the
code installs (the 5-second connect timer, the 10-second stop timer),
and the caller-facing operations sendAudio and stop.  Each step returns
the successor state together with the frames sent on the wire and the
EventEmitter events emitted during that step.
-/

namespace Whisper

/-- Parsed server-to-client protocol messages.  The field text of a
transcript message is optional because the code forwards message.text
unchecked, which may be absent (undefined).  The constructor other
stands for any type tag not handled by the switch statement. -/
inductive ServerMsg where
  | ready
  | transcript (text : Option String)
  | done
  | err (message : String)
  | other
deriving DecidableEq, Repr

/-- Client-to-server wire frames produced by the service: the config
frame sent on open, audio frames carrying a base64 payload, and the
stop frame. -/
inductive Frame where
  | config (language : String)
  | audio (data : String)
  | stop
deriving DecidableEq, Repr

/-- Events emitted on the service's own EventEmitter (this.emit calls):
ready, transcript, done, error and disconnected. -/
inductive Emitted where
  | ready
  | transcript (text : Option String)
  | done
  | err
  | disconnected
deriving DecidableEq, Repr

/-- The mutable state of one WhisperLocalService instance, as left by a
call to connect().

ws             — whether the field this.ws is non-null;
isConnected    — the boolean field this.isConnected;
connectResolved— resolution state of the promise returned by connect():
                 none while pending, some b once resolved with b (a JS
                 promise resolves at most once, later calls no-op);
pendingStops   — how many stop() calls are currently waiting for a done
                 frame or their 10-second timer (each such call holds
                 one once-done listener and one timer);
stopsResolved  — how many stop() promises have resolved so far;
closeCalled    — whether close() has been invoked on the socket. -/
structure ServiceState where
  language : String
  ws : Bool
  isConnected : Bool
  connectResolved : Option Bool
  pendingStops : Nat
  stopsResolved : Nat
  closeCalled : Bool
deriving DecidableEq, Repr

/-- State right after connect() constructs the WebSocket: handle set,
not connected, promise pending, no stop in flight. -/
def connectInit (language : String) : ServiceState :=
  { language := language
    ws := true
    isConnected := false
    connectResolved := none
    pendingStops := 0
    stopsResolved := 0
    closeCalled := false }

/-- First resolution of a promise wins; later resolve calls are no-ops. -/
def resolveOnce (o : Option Bool) (b : Bool) : Option Bool :=
  match o with
  | none => some b
  | some c => some c

/-- The method disconnect(): if the handle is set, close the socket and
null the handle; in any case clear isConnected. -/
def disconnect (s : ServiceState) : ServiceState :=
  if s.ws then
    { s with ws := false, isConnected := false, closeCalled := true }
  else
    { s with isConnected := false }

/-- The events that can reach a service instance: the WebSocket
callbacks registered in connect(), a malformed (unparsable) inbound
message, the firing of the 5-second connect timer, the firing of one
pending 10-second stop timer, and the caller-facing operations
sendAudio and stop. -/
inductive Ev where
  | wsOpen
  | msg (m : ServerMsg)
  | malformed
  | wsError
  | wsClose
  | connectTimeout
  | sendAudio (data : String)
  | callStop
  | stopTimeout
deriving DecidableEq, Repr

/-- One event-loop step of WhisperLocalService, returning the new state,
the frames sent on the wire during the step, and the events emitted on
the service's emitter.  Each branch mirrors the corresponding handler
in the source:

wsOpen         — sets isConnected and sends the config frame (through
                 the optional-chained this.ws, hence only if the handle
                 is still set);
msg ready      — emits ready and resolves the connect promise with true
                 (idempotently);
msg transcript — emits a transcript event with the message's text;
msg done       — emits done; every once-done listener registered by a
                 pending stop() then clears its timer, disconnects and
                 resolves its promise;
msg err        — emits an error event;
msg other, malformed — logged and dropped;
wsError        — emits an error event and, when not connected, resolves
                 the connect promise with false;
wsClose        — clears isConnected and emits disconnected;
connectTimeout — when not connected, closes the socket (leaving the
                 handle set) and resolves the connect promise with
                 false; otherwise does nothing;
sendAudio      — when connected with a live handle, sends an audio
                 frame; otherwise warns and drops the chunk;
callStop       — with a null handle, returns at once (the promise
                 resolves); otherwise, when connected, sends a stop
                 frame and starts waiting for done or the 10-second
                 timer; when not connected, disconnects and resolves;
stopTimeout    — one pending stop timer fires: disconnect and resolve
                 that stop() promise. -/
def step (s : ServiceState) (e : Ev) : ServiceState × List Frame × List Emitted :=
  match e with
  | .wsOpen =>
      ({ s with isConnected := true },
       if s.ws then [Frame.config s.language] else [], [])
  | .msg .ready =>
      ({ s with connectResolved := resolveOnce s.connectResolved true },
       [], [Emitted.ready])
  | .msg (.transcript t) => (s, [], [Emitted.transcript t])
  | .msg .done =>
      if s.pendingStops > 0 then
        ({ disconnect s with
            pendingStops := 0
            stopsResolved := s.stopsResolved + s.pendingStops },
         [], [Emitted.done])
      else (s, [], [Emitted.done])
  | .msg (.err _) => (s, [], [Emitted.err])
  | .msg .other => (s, [], [])
  | .malformed => (s, [], [])
  | .wsError =>
      ({ s with connectResolved :=
          if s.isConnected then s.connectResolved
          else resolveOnce s.connectResolved false },
       [], [Emitted.err])
  | .wsClose => ({ s with isConnected := false }, [], [Emitted.disconnected])
  | .connectTimeout =>
      if s.isConnected then (s, [], [])
      else
        ({ s with
            closeCalled := s.closeCalled || s.ws
            connectResolved := resolveOnce s.connectResolved false },
         [], [])
  | .sendAudio d =>
      if s.isConnected && s.ws then (s, [Frame.audio d], [])
      else (s, [], [])
  | .callStop =>
      if !s.ws then
        ({ s with stopsResolved := s.stopsResolved + 1 }, [], [])
      else if s.isConnected then
        ({ s with pendingStops := s.pendingStops + 1 }, [Frame.stop], [])
      else
        ({ disconnect s with stopsResolved := s.stopsResolved + 1 }, [], [])
  | .stopTimeout =>
      if s.pendingStops > 0 then
        ({ disconnect s with
            pendingStops := s.pendingStops - 1
            stopsResolved := s.stopsResolved + 1 },
         [], [])
      else (s, [], [])

/-- Run a list of events from a given state, accumulating the wire
frames and emitted events in order. -/
def runFrom (s : ServiceState) : List Ev → ServiceState × List Frame × List Emitted
  | [] => (s, [], [])
  | e :: es =>
      let r := step s e
      let rest := runFrom r.1 es
      (rest.1, r.2.1 ++ rest.2.1, r.2.2 ++ rest.2.2)

/-- Run a session from the state connect() leaves with the default
language en. -/
def run (evs : List Ev) : ServiceState × List Frame × List Emitted :=
  runFrom (connectInit "en") evs

/-- Final service state once a stop() call has resolved.  With a null
handle stop() returns immediately.  With a live connected handle the
call resolves only after a done frame or the 10-second timer, so the
final state is obtained by running the stop call followed by that
resolution event.  With a live but unconnected handle stop()
disconnects and resolves synchronously. -/
def stopFinal (s : ServiceState) (doneArrives : Bool) : ServiceState :=
  if s.ws && s.isConnected then
    (runFrom s [Ev.callStop,
      if doneArrives then Ev.msg ServerMsg.done else Ev.stopTimeout]).1
  else
    (runFrom s [Ev.callStop]).1

/-- Observable sub-steps of the transcription:start IPC handler, used
to state ordering between tearing down the prior session and connecting
the new one. -/
inductive IpcAction where
  | stopPrior
  | connectNew
  | disconnectNew
deriving DecidableEq, Repr

/-- The transcription:start IPC handler.  If a prior service is held in
the module-level variable, it is stopped (await whisperService.stop(),
whose effect on the prior instance is stopFinal) and the variable
cleared, before a new service is created and connect() awaited.  The
new connection's fate is determined by the events newEvs it processes;
the handler proceeds once the connect promise is resolved.  On success
the new service is stored and true returned; on failure the new service
is disconnected, the variable left null, and false returned. -/
def ipcStart (svc : Option ServiceState) (newEvs : List Ev) (language : String) :
    Option ServiceState × Bool × List IpcAction :=
  let pre : List IpcAction :=
    match svc with
    | none => []
    | some _ => [IpcAction.stopPrior]
  let res := runFrom (connectInit language) newEvs
  if res.1.connectResolved = some true then
    (some res.1, true, pre ++ [IpcAction.connectNew])
  else
    (none, false, pre ++ [IpcAction.connectNew, IpcAction.disconnectNew])

/-- The transcription:send-audio IPC handler.  It throws when the
module-level service variable is null, throws when the service reports
getIsConnected() false, and otherwise forwards the chunk through
sendAudio; a thrown error is modelled as Except.error carrying the
message. -/
def ipcSendAudio (svc : Option ServiceState) (chunk : String) :
    Except String (ServiceState × List Frame) :=
  match svc with
  | none =>
      Except.error "Transcription not started. Please check if Whisper server is running."
  | some s =>
      if !s.isConnected then
        Except.error "Transcription not connected. Please restart recording."
      else
        let r := step s (Ev.sendAudio chunk)
        Except.ok (r.1, r.2.1)

/-- The renderer's onTranscriptionResult handler: a received result
replaces the displayed transcript only when result.text is truthy, so
an absent or empty text leaves the display unchanged. -/
def displayStep (current : String) (t : Option String) : String :=
  match t with
  | some txt => if txt = "" then current else txt
  | none => current

/-- Displayed transcript after a sequence of received transcript
results, starting from the initial empty display. -/
def display (ts : List (Option String)) : String :=
  ts.foldl displayStep ""

/-- The texts of the transcript events in an emitted-event sequence, in
order. -/
def transcriptTexts (es : List Emitted) : List (Option String) :=
  es.filterMap fun e =>
    match e with
    | .transcript t => some t
    | _ => none

/-- Modelled from the spec: the displayed text the specification
promises — the text of the most recent transcript update, restricted
here to the most recent one carrying a present, nonempty text. -/
def lastNonEmpty (ts : List (Option String)) : Option String :=
  ((ts.filterMap id).filter (fun t => t ≠ "")).getLast?

/-- A session state in which the handshake has completed: handle live,
connected, connect promise resolved true, no stop in flight.  Used as a
concrete instance in witnesses. -/
def readyState : ServiceState :=
  { connectInit "en" with isConnected := true, connectResolved := some true }

/-- Unfolding of runFrom on a cons cell. -/
theorem runFrom_cons (s : ServiceState) (e : Ev) (es : List Ev) :
    runFrom s (e :: es) =
      ((runFrom (step s e).1 es).1,
       (step s e).2.1 ++ (runFrom (step s e).1 es).2.1,
       (step s e).2.2 ++ (runFrom (step s e).1 es).2.2) := rfl

/-- From a disconnected state, any event other than the transport open
callback sends nothing on the wire and leaves the state disconnected. -/
theorem step_no_open (s : ServiceState) (e : Ev)
    (hc : s.isConnected = false) (he : e ≠ Ev.wsOpen) :
    (step s e).2.1 = [] ∧ (step s e).1.isConnected = false := by
  obtain ⟨lang, ws, conn, cr, ps, sr, cc⟩ := s
  simp only at hc
  subst hc
  cases e with
  | wsOpen => exact absurd rfl he
  | msg m =>
      cases m <;> simp [step, disconnect] <;> split <;> simp [disconnect] <;>
        split <;> simp
  | malformed => simp [step]
  | wsError => simp [step]
  | wsClose => simp [step]
  | connectTimeout => simp [step]
  | sendAudio d => simp [step]
  | callStop => cases ws <;> simp [step, disconnect]
  | stopTimeout => simp [step, disconnect] <;> split <;> simp [disconnect] <;>
      split <;> simp

/-- From a disconnected state, a trace that never contains the
transport open callback sends no frame at all and ends disconnected. -/
theorem runFrom_no_open (evs : List Ev) : ∀ s : ServiceState,
    s.isConnected = false → Ev.wsOpen ∉ evs →
    (runFrom s evs).2.1 = [] ∧ (runFrom s evs).1.isConnected = false := by
  induction evs with
  | nil => exact fun s h _ => ⟨rfl, h⟩
  | cons e es ih =>
      intro s hc hmem
      have he : e ≠ Ev.wsOpen := fun h => hmem (h ▸ List.mem_cons_self _ _)
      have hes : Ev.wsOpen ∉ es := fun h => hmem (List.mem_cons_of_mem _ h)
      have h1 := step_no_open s e hc he
      have h2 := ih (step s e).1 h1.2 hes
      rw [runFrom_cons]
      exact ⟨by rw [h1.1, h2.1]; rfl, h2.2⟩

/-- Whatever the session was doing, once a stop() call has resolved the
socket handle is cleared and the connection flag is down.  The
hypothesis rules out the unreachable combination of a null handle with
a set connection flag. -/
theorem stopFinal_disconnected (s : ServiceState) (b : Bool)
    (h : s.ws = false → s.isConnected = false) :
    (stopFinal s b).ws = false ∧ (stopFinal s b).isConnected = false := by
  obtain ⟨lang, ws, conn, cr, ps, sr, cc⟩ := s
  cases ws with
  | false =>
      have hc : conn = false := h rfl
      simp [stopFinal, runFrom, step, hc]
  | true =>
      cases conn with
      | false => simp [stopFinal, runFrom, step, disconnect]
      | true =>
          cases b <;> simp [stopFinal, runFrom, step, disconnect]

/-- Appending the default after a cons shifts the default. -/
theorem getLastD_cons {α : Type} (l : List α) (a d : α) :
    ((a :: l).getLast?).getD d = (l.getLast?).getD a := by
  induction l generalizing a d with
  | nil => rfl
  | cons b l ih =>
      rw [List.getLast?_cons_cons, ih b d, ih b a]

/-- The renderer's fold over received transcript results computes the
last present nonempty text, with the accumulator as fallback. -/
theorem foldl_displayStep (ts : List (Option String)) : ∀ acc : String,
    ts.foldl displayStep acc = (lastNonEmpty ts).getD acc := by
  induction ts with
  | nil => intro acc; rfl
  | cons t ts ih =>
      intro acc
      rw [List.foldl_cons, ih]
      cases t with
      | none => simp [lastNonEmpty, displayStep]
      | some txt =>
          by_cases hx : txt = ""
          · subst hx
            simp [lastNonEmpty, displayStep]
          · simp [lastNonEmpty, displayStep, hx, getLastD_cons]

/-- C1: counterexample to the claim as stated.  A sendAudio call made
after the transport open callback but before any ready frame has been
received does emit an audio frame on the wire, because the guard in
sendAudio tests only the isConnected flag, which the open callback
already set; the trace below contains no ready frame yet its wire
output ends with an audio frame. -/
theorem c1_audio_before_ready_cex :
    (run [Ev.wsOpen, Ev.sendAudio "x"]).2.1
        = [Frame.config "en", Frame.audio "x"] ∧
    Ev.msg ServerMsg.ready ∉ [Ev.wsOpen, Ev.sendAudio "x"] :=
  ⟨rfl, by decide⟩

/-- C1 amended: sendAudio produces no audio frame while the transport
is not connected: a trace without the open callback emits no frame at
all, and a sendAudio step from a disconnected state, or with a null
handle, drops the chunk with a warning and changes nothing; once the
open callback has run, however, audio frames are sent even before
ready arrives. -/
theorem c1_amended_no_audio_before_open :
    (∀ evs : List Ev, Ev.wsOpen ∉ evs → ∀ d, Frame.audio d ∉ (run evs).2.1) ∧
    (∀ (s : ServiceState) (d : String), s.isConnected = false ∨ s.ws = false →
      step s (Ev.sendAudio d) = (s, [], [])) := by
  constructor
  · intro evs h d
    have hr := runFrom_no_open evs (connectInit "en") rfl h
    rw [show (run evs).2.1 = (runFrom (connectInit "en") evs).2.1 from rfl, hr.1]
    exact List.not_mem_nil _
  · intro s d h
    obtain ⟨lang, ws, conn, cr, ps, sr, cc⟩ := s
    rcases h with h | h <;> simp only at h <;> subst h <;> simp [step]

/-- C1 witness: the amended theorem applied at concrete inputs. -/
theorem c1_amended_witness :
    Frame.audio "x" ∉ (run [Ev.sendAudio "x"]).2.1 ∧
    step (connectInit "en") (Ev.sendAudio "y") = (connectInit "en", [], []) :=
  ⟨c1_amended_no_audio_before_open.1 [Ev.sendAudio "x"] (by decide) "x",
   c1_amended_no_audio_before_open.2 (connectInit "en") "y" (Or.inl rfl)⟩

/-- C2: evaluation of the code at the failing input.  When the
transport connection opens but the server never sends ready, the
5-second connect timer finds isConnected already true (it was set by
the open callback) and therefore neither resolves the start promise
nor closes the socket: start() stays pending forever and the link
stays open, where the claim, and the specification, require start()
to resolve false with the link closed. -/
theorem c2_handshake_timeout_hangs :
    (run [Ev.wsOpen, Ev.connectTimeout]).1.connectResolved = none ∧
    (run [Ev.wsOpen, Ev.connectTimeout]).1.closeCalled = false ∧
    (run [Ev.wsOpen, Ev.connectTimeout]).1.ws = true ∧
    (run [Ev.wsOpen, Ev.connectTimeout]).1.isConnected = true :=
  ⟨rfl, rfl, rfl, rfl⟩

/-- C3: counterexample to the claim as stated.  A chunk arriving after
stop() has been invoked but before the done frame or the 10-second
timer still produces an audio frame, because stop() leaves the handle
and the isConnected flag untouched until the done handler or the
timer runs disconnect: the wire output below shows an audio frame
after the stop frame. -/
theorem c3_audio_after_stop_cex :
    (run [Ev.wsOpen, Ev.msg ServerMsg.ready, Ev.callStop, Ev.sendAudio "x"]).2.1
      = [Frame.config "en", Frame.stop, Frame.audio "x"] := rfl

/-- C3 amended: once a stop() call has resolved — done received or the
10-second timer fired, the link disconnected — no further audio frame
is emitted as long as no new transport open callback occurs; between
stop() and its resolution, however, sendAudio still emits audio
frames. -/
theorem c3_amended_no_audio_after_stop_resolved (s : ServiceState) (b : Bool)
    (evs : List Ev) (h : s.ws = false → s.isConnected = false)
    (hno : Ev.wsOpen ∉ evs) :
    ∀ d, Frame.audio d ∉ (runFrom (stopFinal s b) evs).2.1 := by
  intro d
  have hd := stopFinal_disconnected s b h
  have hr := runFrom_no_open evs (stopFinal s b) hd.2 hno
  rw [hr.1]
  exact List.not_mem_nil _

/-- C3 witness: the amended theorem applied at concrete inputs. -/
theorem c3_amended_witness :
    Frame.audio "z" ∉ (runFrom (stopFinal readyState true) [Ev.sendAudio "z"]).2.1 :=
  c3_amended_no_audio_after_stop_resolved readyState true [Ev.sendAudio "z"]
    (by decide) (by decide) "z"

/-- C4: a stop() call on a connected session with no stop already in
flight is still unresolved right after the call; no event other than a
done frame or the stop timer firing resolves it; and on the first done
frame, or on the timer, it resolves with the socket closed, the handle
cleared and the connection flag down.  stop() has no reject path: both
completion branches go through the promise's resolve callback. -/
theorem c4_stop_resolves_on_done_or_timeout (s : ServiceState)
    (hws : s.ws = true) (hc : s.isConnected = true) (hp : s.pendingStops = 0) :
    (step s Ev.callStop).1.stopsResolved = s.stopsResolved ∧
    (∀ e : Ev, e ≠ Ev.msg ServerMsg.done → e ≠ Ev.stopTimeout →
      (step (step s Ev.callStop).1 e).1.stopsResolved = s.stopsResolved) ∧
    ((runFrom s [Ev.callStop, Ev.msg ServerMsg.done]).1.stopsResolved
        = s.stopsResolved + 1 ∧
     (runFrom s [Ev.callStop, Ev.msg ServerMsg.done]).1.ws = false ∧
     (runFrom s [Ev.callStop, Ev.msg ServerMsg.done]).1.isConnected = false ∧
     (runFrom s [Ev.callStop, Ev.msg ServerMsg.done]).1.closeCalled = true) ∧
    ((runFrom s [Ev.callStop, Ev.stopTimeout]).1.stopsResolved
        = s.stopsResolved + 1 ∧
     (runFrom s [Ev.callStop, Ev.stopTimeout]).1.ws = false ∧
     (runFrom s [Ev.callStop, Ev.stopTimeout]).1.isConnected = false ∧
     (runFrom s [Ev.callStop, Ev.stopTimeout]).1.closeCalled = true) := by
  obtain ⟨lang, ws, conn, cr, ps, sr, cc⟩ := s
  simp only at hws hc hp
  subst hws; subst hc; subst hp
  refine ⟨rfl, ?_, by simp [runFrom, step, disconnect], by simp [runFrom, step, disconnect]⟩
  intro e h1 h2
  cases e with
  | msg m =>
      cases m with
      | done => exact absurd rfl h1
      | ready => simp [step]
      | transcript t => simp [step]
      | err m => simp [step]
      | other => simp [step]
  | stopTimeout => exact absurd rfl h2
  | wsOpen => simp [step]
  | malformed => simp [step]
  | wsError => simp [step]
  | wsClose => simp [step]
  | connectTimeout => simp [step]
  | sendAudio d => simp [step]
  | callStop => simp [step]

/-- C4 witness: the theorem applied at a concrete connected state. -/
theorem c4_witness :
    (runFrom readyState [Ev.callStop, Ev.msg ServerMsg.done]).1.stopsResolved
        = readyState.stopsResolved + 1 ∧
    (runFrom readyState [Ev.callStop, Ev.msg ServerMsg.done]).1.ws = false ∧
    (runFrom readyState [Ev.callStop, Ev.stopTimeout]).1.stopsResolved
        = readyState.stopsResolved + 1 :=
  ⟨(c4_stop_resolves_on_done_or_timeout readyState rfl rfl rfl).2.2.1.1,
   (c4_stop_resolves_on_done_or_timeout readyState rfl rfl rfl).2.2.1.2.1,
   (c4_stop_resolves_on_done_or_timeout readyState rfl rfl rfl).2.2.2.1⟩

/-- C5: counterexample to the claim as stated.  Two stop() calls in
succession on a connected session both find the handle set and the
connection flag up (nothing clears them until done or the timer), so
each call sends its own stop frame: two stop frames on the wire. -/
theorem c5_double_stop_two_frames_cex :
    (run [Ev.wsOpen, Ev.msg ServerMsg.ready, Ev.callStop, Ev.callStop]).2.1
      = [Frame.config "en", Frame.stop, Frame.stop] := rfl

/-- C5 amended: calling stop() twice in succession while the session
is connected produces one stop frame per call — two frames on the
wire — and both calls resolve without error once the done frame
arrives, leaving the link disconnected. -/
theorem c5_amended_double_stop (s : ServiceState)
    (hws : s.ws = true) (hc : s.isConnected = true) (hp : s.pendingStops = 0) :
    (runFrom s [Ev.callStop, Ev.callStop]).2.1 = [Frame.stop, Frame.stop] ∧
    (runFrom s [Ev.callStop, Ev.callStop, Ev.msg ServerMsg.done]).1.stopsResolved
      = s.stopsResolved + 2 ∧
    (runFrom s [Ev.callStop, Ev.callStop, Ev.msg ServerMsg.done]).1.ws = false ∧
    (runFrom s [Ev.callStop, Ev.callStop, Ev.msg ServerMsg.done]).1.isConnected
      = false := by
  obtain ⟨lang, ws, conn, cr, ps, sr, cc⟩ := s
  simp only at hws hc hp
  subst hws; subst hc; subst hp
  simp [runFrom, step, disconnect]

/-- C5 witness: the amended theorem applied at a concrete state. -/
theorem c5_amended_witness :
    (runFrom readyState [Ev.callStop, Ev.callStop]).2.1
      = [Frame.stop, Frame.stop] :=
  (c5_amended_double_stop readyState rfl rfl rfl).1

/-- C6: counterexample to the claim as stated.  After a start() that
resolved false the module variable holding the service is null, and
the send-audio IPC handler then throws — the invoke promise rejects
with the message below — rather than silently no-opping; the renderer
catches and logs it, but the exception does cross the IPC boundary. -/
theorem c6_send_audio_after_failed_start_throws_cex :
    (ipcStart none [Ev.wsError] "en").1 = none ∧
    (ipcStart none [Ev.wsError] "en").2.1 = false ∧
    ipcSendAudio none "x"
      = Except.error
          "Transcription not started. Please check if Whisper server is running." :=
  ⟨rfl, rfl, rfl⟩

/-- C6 amended: after start() has resolved false, a sendAudio call on
the service itself silently no-ops — no frame, no event, no state
change, and being a total function it cannot throw — while the
send-audio IPC handler rejects with a Transcription-not-started error
that the renderer catches and logs. -/
theorem c6_amended_send_audio_after_failed_start :
    (∀ d : String, ipcSendAudio none d
        = Except.error
            "Transcription not started. Please check if Whisper server is running.") ∧
    (∀ (s : ServiceState) (d : String), s.isConnected = false →
      step s (Ev.sendAudio d) = (s, [], [])) := by
  refine ⟨fun d => rfl, ?_⟩
  intro s d h
  obtain ⟨lang, ws, conn, cr, ps, sr, cc⟩ := s
  simp only at h
  subst h
  simp [step]

/-- C6 witness: the amended theorem applied at concrete inputs. -/
theorem c6_amended_witness :
    ipcSendAudio none "x"
      = Except.error
          "Transcription not started. Please check if Whisper server is running." ∧
    step { connectInit "en" with connectResolved := some false } (Ev.sendAudio "x")
      = ({ connectInit "en" with connectResolved := some false }, [], []) :=
  ⟨c6_amended_send_audio_after_failed_start.1 "x",
   c6_amended_send_audio_after_failed_start.2
     { connectInit "en" with connectResolved := some false } "x" rfl⟩

/-- C7: the start IPC handler first awaits the prior session's stop()
— whose resolution leaves that session's handle cleared and connection
flag down — and only then attempts the new connection; the module
variable is a single optional slot, so at most one service is held,
and it is overwritten only after the prior teardown. -/
theorem c7_single_session_teardown_first (prior : ServiceState) (b : Bool)
    (newEvs : List Ev) (lang : String)
    (h : prior.ws = false → prior.isConnected = false) :
    (ipcStart (some prior) newEvs lang).2.2.take 2
        = [IpcAction.stopPrior, IpcAction.connectNew] ∧
    (stopFinal prior b).ws = false ∧
    (stopFinal prior b).isConnected = false := by
  refine ⟨?_, (stopFinal_disconnected prior b h).1,
    (stopFinal_disconnected prior b h).2⟩
  simp only [ipcStart]
  split <;> rfl

/-- C7 witness: the theorem applied at a concrete prior session. -/
theorem c7_witness :
    (ipcStart (some readyState) [Ev.wsOpen, Ev.msg ServerMsg.ready] "en").2.2.take 2
      = [IpcAction.stopPrior, IpcAction.connectNew] ∧
    (stopFinal readyState true).ws = false :=
  ⟨(c7_single_session_teardown_first readyState true
      [Ev.wsOpen, Ev.msg ServerMsg.ready] "en" (by decide)).1,
   (c7_single_session_teardown_first readyState true
      [Ev.wsOpen, Ev.msg ServerMsg.ready] "en" (by decide)).2.1⟩

/-- C8: counterexample to the claim as stated.  The renderer replaces
the display only when the received text is truthy, so a transcript
frame whose cumulative text is the empty string leaves the previous
text on screen, and the displayed text then differs from the text of
the most recently received frame. -/
theorem c8_empty_replace_cex :
    transcriptTexts (run [Ev.wsOpen, Ev.msg ServerMsg.ready,
        Ev.msg (ServerMsg.transcript (some "Hello")),
        Ev.msg (ServerMsg.transcript (some ""))]).2.2
      = [some "Hello", some ""] ∧
    display [some "Hello", some ""] = "Hello" ∧
    ("Hello" : String) ≠ "" :=
  ⟨rfl, rfl, by decide⟩

/-- C8 amended: the displayed transcript equals the text of the most
recent transcript result carrying a present nonempty text — each such
result fully replaces the display, while empty or absent texts are
ignored; before any such result the display is the initial empty
string. -/
theorem c8_amended_display_last_nonempty (ts : List (Option String)) :
    display ts = (lastNonEmpty ts).getD "" :=
  foldl_displayStep ts ""

/-- C9: counterexample to the claim as stated.  The message handler
emits a ready event on every ready frame, with no gating on session
state, so a duplicate ready after the session is already ready
re-fires the ready event instead of being ignored: the two-frame trace
below emits two ready events. -/
theorem c9_duplicate_ready_refires_cex :
    (run [Ev.wsOpen, Ev.msg ServerMsg.ready, Ev.msg ServerMsg.ready]).2.2
      = [Emitted.ready, Emitted.ready] := rfl

/-- C9 amended: the ready handler is not gated on any state: every
ready frame emits exactly one ready event — so ready fires once per
ready frame received, not at most once per session — sends nothing on
the wire, and never crashes; the start() resolution itself is
idempotent: the first ready resolves it to true, and a ready received
after resolution leaves the state entirely unchanged. -/
theorem c9_amended_ready_per_frame :
    (∀ s : ServiceState,
      (step s (Ev.msg ServerMsg.ready)).2.2 = [Emitted.ready] ∧
      (step s (Ev.msg ServerMsg.ready)).2.1 = []) ∧
    (∀ (s : ServiceState) (b : Bool), s.connectResolved = some b →
      (step s (Ev.msg ServerMsg.ready)).1 = s) ∧
    (∀ s : ServiceState, s.connectResolved = none →
      (step s (Ev.msg ServerMsg.ready)).1.connectResolved = some true) := by
  refine ⟨fun s => ⟨rfl, rfl⟩, ?_, ?_⟩
  · intro s b h
    obtain ⟨lang, ws, conn, cr, ps, sr, cc⟩ := s
    simp only at h
    subst h
    simp [step, resolveOnce]
  · intro s h
    obtain ⟨lang, ws, conn, cr, ps, sr, cc⟩ := s
    simp only at h
    subst h
    simp [step, resolveOnce]

/-- C9 witness: the amended theorem applied at concrete states. -/
theorem c9_amended_witness :
    (step readyState (Ev.msg ServerMsg.ready)).1 = readyState ∧
    (step (connectInit "en") (Ev.msg ServerMsg.ready)).1.connectResolved
      = some true :=
  ⟨c9_amended_ready_per_frame.2.1 readyState true rfl,
   c9_amended_ready_per_frame.2.2 (connectInit "en") rfl⟩

/-- C10: stop() on a session that is not connected — a null handle, or
a socket that never reached, or has left, the connected state — sends
no frame, emits nothing, resolves immediately, and leaves the session
fully disconnected: handle cleared, connection flag down. -/
theorem c10_stop_unconnected (s : ServiceState) (h : s.isConnected = false) :
    (step s Ev.callStop).2.1 = [] ∧
    (step s Ev.callStop).2.2 = [] ∧
    (step s Ev.callStop).1.stopsResolved = s.stopsResolved + 1 ∧
    (step s Ev.callStop).1.ws = false ∧
    (step s Ev.callStop).1.isConnected = false := by
  obtain ⟨lang, ws, conn, cr, ps, sr, cc⟩ := s
  simp only at h
  subst h
  cases ws <;> simp [step, disconnect]

/-- C10 witness: the theorem applied at the state connect() leaves
before the transport has opened. -/
theorem c10_witness :
    (step (connectInit "en") Ev.callStop).2.1 = [] ∧
    (step (connectInit "en") Ev.callStop).2.2 = [] ∧
    (step (connectInit "en") Ev.callStop).1.stopsResolved
      = (connectInit "en").stopsResolved + 1 ∧
    (step (connectInit "en") Ev.callStop).1.ws = false ∧
    (step (connectInit "en") Ev.callStop).1.isConnected = false :=
  c10_stop_unconnected (connectInit "en") rfl

end Whisper
